import Mathlib

/-!
# systemd-gpt-auto-generator

A shallow embedding of `src/gpt-auto-generator/gpt-auto-generator.c`.

Every call that leaves the file (libblkid, libudev, the btrfs ioctls, the C
library, helpers of other systemd files) is represented by what it returns:
the records below hold those outcomes, and the functions of the file are
translated line by line over them.  `int` results are `Int`; a failing call
carries the `errno` it leaves behind, a natural number (0 where the call may
leave it untouched).  The calls a function makes that have an effect outside it are
collected, in order, in a list.
-/

namespace GptAutoGenerator

/-! ## Constants -/

/-- Linux errno: I/O error. -/
def EIO : Nat := 5
/-- Linux errno: out of memory. -/
def ENOMEM : Nat := 12
/-- Linux errno: no such device. -/
def ENODEV : Nat := 19
/-- Linux errno: invalid argument. -/
def EINVAL : Nat := 22
/-- Linux errno: invalid slot. -/
def EBADSLT : Nat := 57

/-- Exit status of a successful run (stdlib.h). -/
def EXIT_SUCCESS : Int := 0
/-- Exit status of a failed run (stdlib.h). -/
def EXIT_FAILURE : Int := 1

/-- The value of `(unsigned) -1`. -/
def UINT_MAX : Nat := 2 ^ 32 - 1

/-- Magic number of btrfs in `statfs.f_type` (linux/magic.h). -/
def BTRFS_SUPER_MAGIC : Nat := 0x9123683E

/-- The result of `log_oom()`: it logs and hands back `-ENOMEM`. -/
def log_oom : Int := - ENOMEM

/-- A 128 bit identifier, as its sixteen bytes. -/
abbrev sd_id128_t := List Nat

/-- The bytes of `SD_ID128_MAKE(06,57,fd,6d,a4,ab,43,c4,84,e5,09,33,c8,4b,4f,4f)`. -/
def GPT_SWAP : sd_id128_t :=
  [0x06, 0x57, 0xfd, 0x6d, 0xa4, 0xab, 0x43, 0xc4, 0x84, 0xe5, 0x09, 0x33, 0xc8, 0x4b, 0x4f, 0x4f]

/-- The bytes of `SD_ID128_MAKE(93,3a,c7,e1,2e,b4,4f,13,b8,44,0e,14,e2,ae,f9,15)`. -/
def GPT_HOME : sd_id128_t :=
  [0x93, 0x3a, 0xc7, 0xe1, 0x2e, 0xb4, 0x4f, 0x13, 0xb8, 0x44, 0x0e, 0x14, 0xe2, 0xae, 0xf9, 0x15]

/-! ## libblkid -/

/-- What `blkid_probe_lookup_value` gives for one key: the value, or a non-zero
return together with `errno` as it stands after the call (the caller clears it
before, so 0 means the call did not touch it). -/
inductive lookup (α : Type) where
  | found (v : α)
  | failed (errno : Nat)

/-- What libblkid reports on an opened device node.

`PART_ENTRY_TYPE` and `PART_ENTRY_NUMBER` hold, for the string found, what
`sd_id128_from_string` and `safe_atou` (other files of systemd) make of it:
their return code and the value they store. -/
structure blkid_probe where
  /-- return value of `blkid_do_safeprobe` -/
  do_safeprobe : Int
  /-- errno after `blkid_do_safeprobe` -/
  do_safeprobe_errno : Nat
  PART_ENTRY_SCHEME : lookup String
  PART_ENTRY_TYPE : lookup (Int × sd_id128_t)
  PART_ENTRY_NUMBER : lookup (Int × Nat)
  TYPE : lookup String
  /-- whether `strdup` of the `TYPE` value gets its memory -/
  strdup : Bool

/-- The result of `blkid_new_probe_from_filename`, by device node: a probe, or `NULL`
with the errno it leaves. -/
abbrev blkid := String → Except Nat blkid_probe

/-- Return value and out-parameters of `verify_gpt_partition`; an out-parameter
that was not written is `none`. -/
structure verified where
  r : Int
  type : Option sd_id128_t
  nr : Option Nat
  fstype : Option String
deriving DecidableEq, Repr

/-- Lines 114-130: the `fstype` out-parameter, then `return 1`. -/
def verify_fstype (b : blkid_probe) (fstype : Bool) (t : Option sd_id128_t) (n : Option Nat) :
    verified :=
  if fstype then
    match b.TYPE with
    | .failed _ => ⟨1, t, n, none⟩
    | .found v => if b.strdup then ⟨1, t, n, some v⟩ else ⟨- ENOMEM, t, n, none⟩
  else ⟨1, t, n, none⟩

/-- Lines 102-111: the `nr` out-parameter, an `unsigned`. -/
def verify_nr (b : blkid_probe) (nr fstype : Bool) (t : Option sd_id128_t) : verified :=
  if nr then
    match b.PART_ENTRY_NUMBER with
    | .failed errno => ⟨if errno ≠ 0 then - errno else - EIO, t, none, none⟩
    | .found (r, v) => if r < 0 then ⟨r, t, none, none⟩ else verify_fstype b fstype t (some (v % 2 ^ 32))
  else verify_fstype b fstype t none

/-- Lines 91-100: the `type` out-parameter. -/
def verify_type (b : blkid_probe) (type nr fstype : Bool) : verified :=
  if type then
    match b.PART_ENTRY_TYPE with
    | .failed errno => ⟨if errno ≠ 0 then - errno else - EIO, none, none, none⟩
    | .found (r, v) => if r < 0 then ⟨r, none, none, none⟩ else verify_nr b nr fstype (some v)
  else verify_nr b nr fstype none

/-- `verify_gpt_partition(node, type, nr, fstype)`; the three flags say which
out-parameters are not `NULL`. -/
def verify_gpt_partition (B : blkid) (node : String) (type nr fstype : Bool) : verified :=
  match B node with
  | .error errno => ⟨if errno ≠ 0 then - errno else - ENOMEM, none, none, none⟩
  | .ok b =>
    if b.do_safeprobe = -2 ∨ b.do_safeprobe = 1 then ⟨- EBADSLT, none, none, none⟩
    else if b.do_safeprobe ≠ 0 then
      ⟨if b.do_safeprobe_errno ≠ 0 then - b.do_safeprobe_errno else - EIO, none, none, none⟩
    else
      match b.PART_ENTRY_SCHEME with
      | .failed errno => ⟨if errno ≠ 0 then - errno else 0, none, none, none⟩
      | .found v => if v ≠ "gpt" then ⟨0, none, none, none⟩ else verify_type b type nr fstype

/-! ## libudev and `enumerate_partitions` -/

/-- A device number, by `major()` and `minor()`. -/
structure dev_t where
  major : Nat
  minor : Nat
deriving DecidableEq, Repr

/-- A udev device: `udev_device_get_devnum` and `udev_device_get_devnode`. -/
structure udev_device where
  devnum : dev_t
  devnode : Option String
deriving DecidableEq, Repr

/-- One entry of the enumeration: what `udev_device_new_from_syspath` gives for
its name, and whether a `strdup` of its node gets its memory. -/
structure list_entry where
  device : Option udev_device
  strdup : Bool
deriving DecidableEq, Repr

/-- The calls with an effect outside the caller, as they are made. -/
inductive call where
  | verify_gpt_partition (node : String)
  | add_swap (path : String) (fstype : Option String)
  | add_home (path : String) (fstype : String)
  | enumerate_partitions (dev : dev_t)
deriving DecidableEq, Repr

/-- The locals of `enumerate_partitions` that live across loop iterations, and the
calls made so far. -/
structure loop_state where
  r : Int
  home : Option String
  home_nr : Nat
  home_fstype : Option String
  calls : List call
deriving DecidableEq, Repr

/-- How one pass of the loop body ends: on to the next entry, or `return r`. -/
inductive flow where
  | next (s : loop_state)
  | ret (r : Int) (s : loop_state)
deriving DecidableEq, Repr

/-- Lines 309-324: the classification of a partition that was verified (`r > 0`);
`type_id` and `nr` have then been written (`verify_gpt_partition_written`). -/
def classify (s : loop_state) (item : list_entry) (node : String) (v : verified) : flow :=
  if v.type = some GPT_SWAP then
    .next { s with calls := s.calls ++ [call.add_swap node v.fstype] }
  else if v.type = some GPT_HOME then
    if s.home = none ∨ v.nr.getD 0 < s.home_nr then
      if item.strdup then
        .next { s with home := some node, home_nr := v.nr.getD 0, home_fstype := v.fstype }
      else .ret log_oom s
    else .next s
  else .next s

/-- Lines 277-324: the body of the loop over the enumerated entries; `d` is the
root device and `parent` its parent. -/
def loop_body (B : blkid) (d parent : udev_device) (s : loop_state) (item : list_entry) : flow :=
  match item.device with
  | none => .ret log_oom s
  | some q =>
    if q.devnum = d.devnum then .next s
    else if q.devnum = parent.devnum then .next s
    else
      match q.devnode with
      | none => .ret log_oom s
      | some node =>
        let v := verify_gpt_partition B node true true true
        let s1 := { s with r := v.r, calls := s.calls ++ [call.verify_gpt_partition node] }
        if v.r < 0 then
          if v.r = - EBADSLT then .next s1 else .ret v.r s1
        else if v.r = 0 then .next s1
        else classify s1 item node v

/-- Lines 276-325: `udev_list_entry_foreach(item, first) { ... }`. -/
def udev_list_entry_foreach (B : blkid) (d parent : udev_device) :
    loop_state → List list_entry → flow
  | s, [] => .next s
  | s, item :: rest =>
    match loop_body B d parent s item with
    | .next s1 => udev_list_entry_foreach B d parent s1 rest
    | .ret r s1 => .ret r s1

/-- Lines 327-330: what follows the loop, `add_home` for the candidate held and
`return r`; a `return` from inside the loop skips it. -/
def after_loop : flow → Int × List call
  | .ret r s => (r, s.calls)
  | .next s =>
    match s.home, s.home_fstype with
    | some home, some home_fstype => (s.r, s.calls ++ [call.add_home home home_fstype])
    | _, _ => (s.r, s.calls)

/-- The state in which `enumerate_partitions` enters its loop (lines 244-246): no
Home candidate, `home_nr = (unsigned) -1`, and `r` as `udev_enumerate_scan_devices`
left it. -/
def loop_entry (r : Int) : loop_state := ⟨r, none, UINT_MAX, none, []⟩

/-- What the libudev calls of one run return. -/
structure udev where
  /-- `udev_enumerate_new` is not `NULL` -/
  enumerate_new : Bool
  device_new_from_devnum : dev_t → Option udev_device
  device_get_parent : udev_device → Option udev_device
  enumerate_add_match_parent : Int
  enumerate_add_match_subsystem : Int
  enumerate_scan_devices : Int
  /-- the entries of `udev_enumerate_get_list_entry` -/
  list : List list_entry

/-- `enumerate_partitions(udev, dev)`: its return value and the calls it made. -/
def enumerate_partitions (B : blkid) (u : udev) (dev : dev_t) : Int × List call :=
  if ¬ u.enumerate_new then (log_oom, [])
  else
    match u.device_new_from_devnum dev with
    | none => (log_oom, [])
    | some d =>
      match u.device_get_parent d with
      | none => (0, [])
      | some parent =>
        if u.enumerate_add_match_parent < 0 then (log_oom, [])
        else if u.enumerate_add_match_subsystem < 0 then (log_oom, [])
        else if u.enumerate_scan_devices < 0 then (u.enumerate_scan_devices, [])
        else
          after_loop (udev_list_entry_foreach B d parent
            (loop_entry u.enumerate_scan_devices) u.list)

/-! ## The block device of the root file system -/

/-- The fields of `struct stat` that are read: `S_ISBLK(st_mode)` and `st_rdev`. -/
structure stat where
  S_ISBLK : Bool
  st_rdev : dev_t
deriving DecidableEq, Repr

/-- The fields of `struct btrfs_ioctl_fs_info_args` that are read, both `__u64`. -/
structure btrfs_ioctl_fs_info_args where
  num_devices : Nat
  max_id : Nat
deriving DecidableEq, Repr

/-- What the system calls of `get_block_device` and `get_btrfs_block_device`
return; a failing call gives its errno. -/
structure filesystem where
  /-- `lstat("/")`: `st_dev` -/
  lstat : Except Nat dev_t
  /-- `statfs("/")`: `f_type` -/
  statfs : Except Nat Nat
  /-- `open(path, O_DIRECTORY|O_CLOEXEC)` -/
  open_directory : String → Except Nat Unit
  /-- `ioctl(fd, BTRFS_IOC_FS_INFO, &fsi)` -/
  BTRFS_IOC_FS_INFO : Except Nat btrfs_ioctl_fs_info_args
  /-- `ioctl(fd, BTRFS_IOC_DEV_INFO, &di)` for `di.devid = id`: `di.path` -/
  BTRFS_IOC_DEV_INFO : Nat → Except Nat String
  /-- `stat(path, &st)` -/
  stat : String → Except Nat stat

/-- Lines 352-378: `for (id = 1; id <= fsi.max_id; id++) { ... } return -ENODEV;`
entered with the current `id`.  The counter is a `uint64_t` and wraps; `fuel`
bounds the number of passes, and `none` means it ran out. -/
def btrfs_device_loop (fs : filesystem) (max_id : Nat) : Nat → Nat → Option (Int × Option dev_t)
  | 0, _ => none
  | fuel + 1, id =>
    if id ≤ max_id then
      match fs.BTRFS_IOC_DEV_INFO id with
      | .error errno =>
        if errno = ENODEV then btrfs_device_loop fs max_id fuel ((id + 1) % 2 ^ 64)
        else some (- errno, none)
      | .ok path =>
        match fs.stat path with
        | .error errno => some (- errno, none)
        | .ok st =>
          if ¬ st.S_ISBLK then some (- ENODEV, none)
          else if st.st_rdev.major = 0 then some (- ENODEV, none)
          else some (1, some st.st_rdev)
    else some (- ENODEV, none)

/-- `get_btrfs_block_device(path, dev)`: the return value and `*dev` when it was
written. -/
def get_btrfs_block_device (fs : filesystem) (path : String) (fuel : Nat) :
    Option (Int × Option dev_t) :=
  match fs.open_directory path with
  | .error errno => some (- errno, none)
  | .ok _ =>
    match fs.BTRFS_IOC_FS_INFO with
    | .error errno => some (- errno, none)
    | .ok fsi =>
      if fsi.num_devices ≠ 1 then some (0, none)
      else btrfs_device_loop fs fsi.max_id fuel 1

/-- `get_block_device(path, dev)`. -/
def get_block_device (fs : filesystem) (path : String) (fuel : Nat) :
    Option (Int × Option dev_t) :=
  match fs.lstat with
  | .error errno => some (- errno, none)
  | .ok st_dev =>
    if st_dev.major ≠ 0 then some (1, some st_dev)
    else
      match fs.statfs with
      | .error errno => some (- errno, none)
      | .ok f_type =>
        if f_type = BTRFS_SUPER_MAGIC then get_btrfs_block_device fs path fuel
        else some (0, none)

/-- `devno_to_devnode(udev, devno, ret)`: the return value and `*ret` when it was
written; `strdup` says whether the copy of the node gets its memory. -/
def devno_to_devnode (u : udev) (devno : dev_t) (strdup : Bool) : Int × Option String :=
  match u.device_new_from_devnum devno with
  | none => (log_oom, none)
  | some d =>
    match d.devnode with
    | none => (- ENODEV, none)
    | some t => if strdup then (0, some t) else (- ENOMEM, none)

/-! ## `main` -/

/-- Everything `main` asks of its environment. -/
structure system where
  in_initrd : Bool
  detect_container : Int
  fs : filesystem
  /-- `udev_new` is not `NULL` -/
  udev_new : Bool
  udev : udev
  /-- `strdup` in `devno_to_devnode` gets its memory -/
  strdup : Bool
  blkid : blkid

/-- The label `finish`: `return r < 0 ? EXIT_FAILURE : EXIT_SUCCESS;`. -/
def finish (r : Int) (calls : List call) : Int × List call :=
  (if r < 0 then EXIT_FAILURE else EXIT_SUCCESS, calls)

/-- Lines 467-489 of `main`, once the root device number is known.  A result of
`devno_to_devnode` that is not negative comes with the node
(`devno_to_devnode_ret`), so the branch without one is never taken. -/
def main_device (w : system) (devno : dev_t) : Int × List call :=
  if ¬ w.udev_new then finish log_oom []
  else
    match devno_to_devnode w.udev devno w.strdup with
    | (r, ret) =>
      if r < 0 then finish r []
      else
        match ret with
        | none => finish r []
        | some node =>
          let v := verify_gpt_partition w.blkid node false false false
          if v.r < 0 then finish v.r [call.verify_gpt_partition node]
          else if v.r = 0 then finish v.r [call.verify_gpt_partition node]
          else
            match enumerate_partitions w.blkid w.udev devno with
            | (r, calls) =>
              finish r ([call.verify_gpt_partition node, call.enumerate_partitions devno] ++ calls)

/-- `main(argc, argv)`: the exit status and the calls made; `none` when the
device loop of `get_btrfs_block_device` ran out of `fuel`.  A positive result of
`get_block_device` always comes with the device number (`get_block_device_dev`), so
the branch without one is never taken. -/
def main (w : system) (argc : Int) (fuel : Nat) : Option (Int × List call) :=
  if argc > 1 ∧ argc ≠ 4 then some (finish (- EINVAL) [])
  else if w.in_initrd then some (finish 0 [])
  else if w.detect_container > 0 then some (finish 0 [])
  else
    match get_block_device w.fs "/" fuel with
    | none => none
    | some (r, dev) =>
      if r < 0 then some (finish r [])
      else if r = 0 then some (finish r [])
      else
        match dev with
        | none => some (finish r [])
        | some devno => some (main_device w devno)

/-! ## `add_home` -/

/-- Unit names of `special.h`. -/
structure special where
  SPECIAL_UMOUNT_TARGET : String
  SPECIAL_LOCAL_FS_PRE_TARGET : String
  SPECIAL_LOCAL_FS_TARGET : String
  SPECIAL_SWAP_TARGET : String

/-- What the calls of `add_home` return.  `dir_is_empty` (util.c) is positive for a
directory without entries, zero for one with entries, and a negative errno when it
cannot be read. -/
structure home_calls where
  /-- `dir_is_empty("/home")` -/
  dir_is_empty : Int
  /-- `strappend(arg_dest, "/home.mount")` is not `NULL` -/
  strappend : Bool
  /-- `fopen(unit, "wxe")` -/
  fopen : Except Nat Unit
  /-- `unit_name_from_path_instance("systemd-fsck", path, ".service")` -/
  unit_name_from_path_instance : Option String
  /-- `ferror(f)` after `fflush(f)`: the errno when the stream is in error -/
  ferror : Option Nat
  /-- `strjoin(arg_dest, "/" SPECIAL_LOCAL_FS_TARGET ".requires/home.mount", NULL)` is not `NULL` -/
  strjoin : Bool
  /-- `symlink(unit, lnk)` -/
  symlink : Except Nat Unit

/-- The file system calls of `add_home`, as they are made. -/
inductive fs_call where
  | fopen (path mode : String)
  | fprintf (path text : String)
  | mkdir_parents_label (path : String)
  | symlink (target linkpath : String)
deriving DecidableEq, Repr

/-- The text `add_home` prints before the `[Mount]` section. -/
def home_unit_section (sp : special) (fsck : String) : String :=
  "# Automatically generated by systemd-gpt-auto-generator\n\n" ++
  "[Unit]\n" ++
  "DefaultDependencies=no\n" ++
  "Requires=" ++ fsck ++ "\n" ++
  "After=" ++ sp.SPECIAL_LOCAL_FS_PRE_TARGET ++ " " ++ fsck ++ "\n" ++
  "Conflicts=" ++ sp.SPECIAL_UMOUNT_TARGET ++ "\n" ++
  "Before=" ++ sp.SPECIAL_UMOUNT_TARGET ++ " " ++ sp.SPECIAL_LOCAL_FS_TARGET ++ "\n\n"

/-- The `[Mount]` section `add_home` prints. -/
def home_mount_section (path fstype : String) : String :=
  "[Mount]\n" ++
  "What=" ++ path ++ "\n" ++
  "Where=/home\n" ++
  "Type=" ++ fstype ++ "\n"

/-- `add_home(path, fstype)` with the output directory `arg_dest`: the return
value and the file system calls made. -/
def add_home (sp : special) (arg_dest : String) (c : home_calls) (path fstype : String) :
    Int × List fs_call :=
  if c.dir_is_empty ≤ 0 then (0, [])
  else if ¬ c.strappend then (log_oom, [])
  else
    let unit := arg_dest ++ "/home.mount"
    match c.fopen with
    | .error errno => (- errno, [fs_call.fopen unit "wxe"])
    | .ok _ =>
      match c.unit_name_from_path_instance with
      | none => (log_oom, [fs_call.fopen unit "wxe"])
      | some fsck =>
        let text := home_unit_section sp fsck ++ home_mount_section path fstype
        match c.ferror with
        | some errno => (- errno, [fs_call.fopen unit "wxe", fs_call.fprintf unit text])
        | none =>
          if ¬ c.strjoin then (log_oom, [fs_call.fopen unit "wxe", fs_call.fprintf unit text])
          else
            let lnk := arg_dest ++ "/" ++ sp.SPECIAL_LOCAL_FS_TARGET ++ ".requires/home.mount"
            match c.symlink with
            | .error errno =>
              (- errno, [fs_call.fopen unit "wxe", fs_call.fprintf unit text,
                fs_call.mkdir_parents_label lnk, fs_call.symlink unit lnk])
            | .ok _ =>
              (0, [fs_call.fopen unit "wxe", fs_call.fprintf unit text,
                fs_call.mkdir_parents_label lnk, fs_call.symlink unit lnk])

/-! ## `add_swap` -/

/-- What the calls of one `add_swap` return. -/
structure swap_calls where
  /-- `unit_name_from_path(path, ".swap")` -/
  unit_name_from_path : Option String
  /-- `strjoin(arg_dest, "/", name, NULL)` is not `NULL` -/
  strjoin_unit : Bool
  /-- `fopen(unit, "wxe")` -/
  fopen : Except Nat Unit
  /-- `ferror(f)` after `fflush(f)`: the errno when the stream is in error -/
  ferror : Option Nat
  /-- `strjoin(arg_dest, "/" SPECIAL_SWAP_TARGET ".wants/", name, NULL)` is not `NULL` -/
  strjoin_lnk : Bool
  /-- `symlink(unit, lnk)` -/
  symlink : Except Nat Unit

/-- The text `add_swap` prints before the `[Swap]` section. -/
def swap_unit_section (sp : special) : String :=
  "# Automatically generated by systemd-gpt-auto-generator\n\n" ++
  "[Unit]\n" ++
  "DefaultDependencies=no\n" ++
  "Conflicts=" ++ sp.SPECIAL_UMOUNT_TARGET ++ "\n" ++
  "Before=" ++ sp.SPECIAL_UMOUNT_TARGET ++ " " ++ sp.SPECIAL_SWAP_TARGET ++ "\n\n"

/-- The `[Swap]` section `add_swap` prints. -/
def swap_section (path : String) : String :=
  "[Swap]\n" ++
  "What=" ++ path ++ "\n"

/-- `add_swap(path, fstype)` with the output directory `arg_dest`: the return
value and the file system calls made.  `fstype` is only logged. -/
def add_swap (sp : special) (arg_dest : String) (c : swap_calls) (path : String)
    (_fstype : Option String) : Int × List fs_call :=
  match c.unit_name_from_path with
  | none => (log_oom, [])
  | some name =>
    if ¬ c.strjoin_unit then (log_oom, [])
    else
      let unit := arg_dest ++ "/" ++ name
      match c.fopen with
      | .error errno => (- errno, [fs_call.fopen unit "wxe"])
      | .ok _ =>
        let text := swap_unit_section sp ++ swap_section path
        match c.ferror with
        | some errno => (- errno, [fs_call.fopen unit "wxe", fs_call.fprintf unit text])
        | none =>
          if ¬ c.strjoin_lnk then (log_oom, [fs_call.fopen unit "wxe", fs_call.fprintf unit text])
          else
            let lnk := arg_dest ++ "/" ++ sp.SPECIAL_SWAP_TARGET ++ ".wants/" ++ name
            match c.symlink with
            | .error errno =>
              (- errno, [fs_call.fopen unit "wxe", fs_call.fprintf unit text,
                fs_call.mkdir_parents_label lnk, fs_call.symlink unit lnk])
            | .ok _ =>
              (0, [fs_call.fopen unit "wxe", fs_call.fprintf unit text,
                fs_call.mkdir_parents_label lnk, fs_call.symlink unit lnk])

/-! ## Notions used to state the properties -/

/-- A candidate for a role: device node, partition index, file system type. -/
structure candidate where
  node : String
  nr : Nat
  fstype : Option String
deriving DecidableEq, Repr

/-- The node of an entry that is a sibling: its device exists, is neither the root
device nor the parent, and has a device node. -/
def sibling (d parent : udev_device) (item : list_entry) : Option String :=
  match item.device with
  | none => none
  | some q => if q.devnum = d.devnum ∨ q.devnum = parent.devnum then none else q.devnode

/-- A sibling that verifies as a GPT partition with the given type identifier. -/
def typed_sibling (B : blkid) (d parent : udev_device) (t : sd_id128_t) (item : list_entry) :
    Option candidate :=
  match sibling d parent item with
  | none => none
  | some node =>
    let v := verify_gpt_partition B node true true true
    if 0 < v.r ∧ v.type = some t then some ⟨node, v.nr.getD 0, v.fstype⟩ else none

/-- The Home candidate the loop holds. -/
def held (s : loop_state) : Option candidate :=
  s.home.map fun h => ⟨h, s.home_nr, s.home_fstype⟩

/-- The rule of the specification for the Home slot: a match replaces the holder
iff there is no holder yet or its partition index is strictly lower. -/
def compete (holder : Option candidate) (c : candidate) : Option candidate :=
  match holder with
  | none => some c
  | some h => if c.nr < h.nr then some c else some h

/-- Whether an entry passes the loop body without a `return`: its device exists and,
unless it is the root device or the parent, has a node, memory for a copy of it, and
a probe that ends in a result or in `-EBADSLT`. -/
def no_hard_error (B : blkid) (d parent : udev_device) (item : list_entry) : Bool :=
  match item.device with
  | none => false
  | some q =>
    if q.devnum = d.devnum ∨ q.devnum = parent.devnum then true
    else
      match q.devnode with
      | none => false
      | some node =>
        item.strdup &&
          (decide (0 ≤ (verify_gpt_partition B node true true true).r) ||
            decide ((verify_gpt_partition B node true true true).r = - EBADSLT))

/-- The calls one entry gives rise to when the loop goes on after it: the probe of a
sibling, and `add_swap` when it is Swap-typed. -/
def entry_calls (B : blkid) (d parent : udev_device) (item : list_entry) : List call :=
  (sibling d parent item).toList.map call.verify_gpt_partition
    ++ (typed_sibling B d parent GPT_SWAP item).toList.map (fun c => call.add_swap c.node c.fstype)

/-- The calls of a list of entries, entry by entry. -/
def list_calls (B : blkid) (d parent : udev_device) : List list_entry → List call
  | [] => []
  | item :: rest => entry_calls B d parent item ++ list_calls B d parent rest

/-- Whether an entry is the root device or its parent (lines 287-291). -/
def is_root_or_parent (d parent : udev_device) (item : list_entry) : Bool :=
  match item.device with
  | none => false
  | some q => decide (q.devnum = d.devnum ∨ q.devnum = parent.devnum)

/-- The device node or path a call is made with. -/
def call_node : call → Option String
  | .verify_gpt_partition node => some node
  | .add_swap path _ => some path
  | .add_home path _ => some path
  | .enumerate_partitions _ => none

/-- The device an id resolves to when that is a block device with a non-zero major
number. -/
def real_block_device (fs : filesystem) (id : Nat) : Option dev_t :=
  match fs.BTRFS_IOC_DEV_INFO id with
  | .error _ => none
  | .ok path =>
    match fs.stat path with
    | .error _ => none
    | .ok st => if st.S_ISBLK ∧ st.st_rdev.major ≠ 0 then some st.st_rdev else none

/-- The device number of the first id in 1..max_id, ascending, that resolves to a
block device with a non-zero major number. -/
def first_real_block_device (fs : filesystem) (max_id : Nat) : Option dev_t :=
  (List.range' 1 max_id).findSome? (real_block_device fs)

/-- A probe of a GPT partition with the given type, index and `TYPE` lookup. -/
def gpt_partition (t : sd_id128_t) (n : Nat) (fst : lookup String) : blkid_probe :=
  ⟨0, 0, .found "gpt", .found (0, t), .found (0, n), fst, true⟩

/-- A probe on which `blkid_do_safeprobe` returns 1: more than one result. -/
def ambiguous_partition : blkid_probe :=
  ⟨1, 0, .failed 0, .failed 0, .failed 0, .failed 0, true⟩

/-- A probe of a device that carries a file system and no partition entry. -/
def plain_filesystem (fst : String) : blkid_probe :=
  ⟨0, 0, .failed 0, .failed 0, .failed 0, .found fst, true⟩

/-- A probe of a partition of an MBR disk; its `PART_ENTRY_TYPE`, such as 0x83, is
not a 128 bit identifier. -/
def dos_partition : blkid_probe :=
  ⟨0, 0, .found "dos", .found (-22, []), .found (0, 1), .found "ext4", true⟩

/-- The type identifier of a Linux file system partition, 0fc63daf-8483-4772-8e79-3d69d8477de4. -/
def GPT_LINUX : sd_id128_t :=
  [0x0f, 0xc6, 0x3d, 0xaf, 0x84, 0x83, 0x47, 0x72, 0x8e, 0x79, 0x3d, 0x69, 0xd8, 0x47, 0x7d, 0xe4]

/-- The disks of the examples.  On `sda` partition 1 holds a root file system, 3 is
Swap, 2 and 4 are Home, the node of 5 cannot be opened (`EACCES`), 6 probes
ambiguously, 7 is Swap again.  On `sdb` partitions 1 and 2 are Home, the first
without a detected file system, and 3 holds a root file system.  `sdc` carries a
file system and no partition table, `sdd1` is a partition of an MBR disk. -/
def sda_blkid : blkid := fun node =>
  if node = "/dev/sda1" then .ok (gpt_partition GPT_LINUX 1 (.found "ext4"))
  else if node = "/dev/sda2" then .ok (gpt_partition GPT_HOME 2 (.found "ext4"))
  else if node = "/dev/sda3" then .ok (gpt_partition GPT_SWAP 3 (.found "swap"))
  else if node = "/dev/sda4" then .ok (gpt_partition GPT_HOME 4 (.found "xfs"))
  else if node = "/dev/sda6" then .ok ambiguous_partition
  else if node = "/dev/sda7" then .ok (gpt_partition GPT_SWAP 7 (.failed 0))
  else if node = "/dev/sdb1" then .ok (gpt_partition GPT_HOME 1 (.failed 0))
  else if node = "/dev/sdb2" then .ok (gpt_partition GPT_HOME 2 (.found "ext4"))
  else if node = "/dev/sdb3" then .ok (gpt_partition GPT_LINUX 3 (.found "ext4"))
  else if node = "/dev/sdc" then .ok (plain_filesystem "ext4")
  else if node = "/dev/sdd1" then .ok dos_partition
  else .error 13

/-- The disk `sda`, parent of its partitions. -/
def sda_disk : udev_device := ⟨⟨8, 0⟩, some "/dev/sda"⟩

/-- The partition `sda1` with the root file system. -/
def sda_root : udev_device := ⟨⟨8, 1⟩, some "/dev/sda1"⟩

/-- The enumeration entry of `/dev/sda<minor>`. -/
def sda (minor : Nat) (node : String) : list_entry := ⟨some ⟨⟨8, minor⟩, some node⟩, true⟩

/-- The disk `sdb`. -/
def sdb_disk : udev_device := ⟨⟨8, 16⟩, some "/dev/sdb"⟩

/-- The partition `sdb3` with a root file system. -/
def sdb_root : udev_device := ⟨⟨8, 19⟩, some "/dev/sdb3"⟩

/-- The enumeration entry of `/dev/sdb<n>`, minor 16 + n. -/
def sdb (n : Nat) (node : String) : list_entry := ⟨some ⟨⟨8, 16 + n⟩, some node⟩, true⟩

/-- The disk `sdb` as enumerated: the formatted Home partition 2 before the
unformatted Home partition 1. -/
def sdb_list : List list_entry :=
  [sdb 0 "/dev/sdb", sdb 2 "/dev/sdb2", sdb 1 "/dev/sdb1", sdb 3 "/dev/sdb3"]

/-- Scenario 2 of the specification, with the disk and the root partition in the
enumeration: Swap 3, Home 2, Home 4, unreadable 5. -/
def sda_scenario : List list_entry :=
  [sda 0 "/dev/sda", sda 1 "/dev/sda1", sda 3 "/dev/sda3", sda 2 "/dev/sda2",
    sda 4 "/dev/sda4", sda 5 "/dev/sda5"]

/-- The same disk with an ambiguous partition 6 in place of the unreadable one. -/
def sda_settling : List list_entry :=
  [sda 0 "/dev/sda", sda 1 "/dev/sda1", sda 3 "/dev/sda3", sda 2 "/dev/sda2",
    sda 4 "/dev/sda4", sda 6 "/dev/sda6"]

/-- libudev for a root file system on `/dev/sda1`. -/
def sda_udev (list : List list_entry) : udev :=
  { enumerate_new := true
    device_new_from_devnum := fun dev => if dev = ⟨8, 1⟩ then some sda_root else none
    device_get_parent := fun _ => some sda_disk
    enumerate_add_match_parent := 0
    enumerate_add_match_subsystem := 0
    enumerate_scan_devices := 0
    list := list }

/-- A root file system on the block device 8:1; the btrfs calls are never made. -/
def ext4_root : filesystem :=
  { lstat := .ok ⟨8, 1⟩
    statfs := .ok 0xEF53
    open_directory := fun _ => .ok ()
    BTRFS_IOC_FS_INFO := .error 25
    BTRFS_IOC_DEV_INFO := fun _ => .error 25
    stat := fun _ => .error 2 }

/-- A booted machine with its root file system on `/dev/sda1`. -/
def sda_system (list : List list_entry) : system :=
  { in_initrd := false
    detect_container := 0
    fs := ext4_root
    udev_new := true
    udev := sda_udev list
    strdup := true
    blkid := sda_blkid }

/-- A btrfs root file system: `st_dev` is the anonymous device 0:30; `devices` is
what the file system reports, and device ids resolve through `info`. -/
def btrfs_root (devices : btrfs_ioctl_fs_info_args) (info : Nat → Except Nat String) :
    filesystem :=
  { lstat := .ok ⟨0, 30⟩
    statfs := .ok BTRFS_SUPER_MAGIC
    open_directory := fun _ => .ok ()
    BTRFS_IOC_FS_INFO := .ok devices
    BTRFS_IOC_DEV_INFO := info
    stat := fun path =>
      if path = "/dev/sda2" then .ok ⟨true, ⟨8, 2⟩⟩
      else if path = "/dev/sdb1" then .ok ⟨true, ⟨8, 17⟩⟩
      else if path = "/dev/anon" then .ok ⟨true, ⟨0, 5⟩⟩
      else if path = "/var/btrfs.img" then .ok ⟨false, ⟨0, 0⟩⟩
      else .error 2 }

/-- A machine with a btrfs root file system. -/
def btrfs_system (devices : btrfs_ioctl_fs_info_args) (info : Nat → Except Nat String) :
    system :=
  { in_initrd := false
    detect_container := 0
    fs := btrfs_root devices info
    udev_new := true
    udev := sda_udev []
    strdup := true
    blkid := sda_blkid }

/-- Unit names as systemd defines them. -/
def systemd_special : special :=
  ⟨"umount.target", "local-fs-pre.target", "local-fs.target", "swap.target"⟩

/-- The calls of `add_home` when every one of them succeeds, `/home` reporting
`dir_is_empty`. -/
def home_calls_ok (dir_is_empty : Int) : home_calls :=
  { dir_is_empty := dir_is_empty
    strappend := true
    fopen := .ok ()
    unit_name_from_path_instance := some "systemd-fsck@dev-sda2.service"
    ferror := none
    strjoin := true
    symlink := .ok () }

/-- Device ids of a btrfs whose device 1 was replaced or removed: only id 2 resolves. -/
def second_id_only : Nat → Except Nat String := fun id =>
  if id = 2 then .ok "/dev/sda2" else .error 19

/-- Device ids of which the first resolves to a block device with major number zero and
the second to `/dev/sda2`. -/
def zero_major_first : Nat → Except Nat String := fun id =>
  if id = 1 then .ok "/dev/anon" else if id = 2 then .ok "/dev/sda2" else .error 19

/-- Device ids of which the first resolves to a regular file. -/
def image_file_first : Nat → Except Nat String := fun id =>
  if id = 1 then .ok "/var/btrfs.img" else if id = 2 then .ok "/dev/sda2" else .error 19

/-- Two devices, as a btrfs RAID reports them. -/
def two_devices : Nat → Except Nat String := fun id =>
  if id = 1 then .ok "/dev/sda2" else if id = 2 then .ok "/dev/sdb1" else .error 19

theorem GPT_SWAP_ne_GPT_HOME : GPT_SWAP ≠ GPT_HOME := by decide

/-- Past its preamble `enumerate_partitions` is its loop and what follows it. -/
theorem enumerate_partitions_loop (B : blkid) (u : udev) (dev : dev_t) (d parent : udev_device)
    (h0 : u.enumerate_new = true) (hd : u.device_new_from_devnum dev = some d)
    (hp : u.device_get_parent d = some parent) (h1 : 0 ≤ u.enumerate_add_match_parent)
    (h2 : 0 ≤ u.enumerate_add_match_subsystem) (h3 : 0 ≤ u.enumerate_scan_devices) :
    enumerate_partitions B u dev
      = after_loop (udev_list_entry_foreach B d parent
          (loop_entry u.enumerate_scan_devices) u.list) := by
  unfold enumerate_partitions
  simp only [h0, hd, hp, not_true_eq_false, if_false, not_lt.mpr h1, not_lt.mpr h2,
    not_lt.mpr h3]

theorem btrfs_device_loop_dev (fs : filesystem) (max_id : Nat) :
    ∀ (fuel id : Nat) (r : Int) (dev : Option dev_t),
      btrfs_device_loop fs max_id fuel id = some (r, dev) → 0 < r → dev ≠ none := by
  intro fuel
  induction fuel with
  | zero =>
    intro id r dev h
    simp [btrfs_device_loop] at h
  | succ fuel ih =>
    intro id r dev h hr
    unfold btrfs_device_loop at h
    have hn : ¬ (0 : Int) < - (ENODEV : Int) := by decide
    split at h
    · split at h
      · split at h
        · exact ih _ r dev h hr
        · simp only [Option.some.injEq, Prod.mk.injEq] at h
          omega
      · split at h
        · simp only [Option.some.injEq, Prod.mk.injEq] at h
          omega
        · split at h
          · simp only [Option.some.injEq, Prod.mk.injEq] at h
            rw [← h.1] at hr
            exact absurd hr hn
          · split at h
            · simp only [Option.some.injEq, Prod.mk.injEq] at h
              rw [← h.1] at hr
              exact absurd hr hn
            · simp only [Option.some.injEq, Prod.mk.injEq] at h
              rw [← h.2]
              simp
    · simp only [Option.some.injEq, Prod.mk.injEq] at h
      rw [← h.1] at hr
      exact absurd hr hn

/-- A positive result of `get_block_device` comes with the device number. -/
theorem get_block_device_dev (fs : filesystem) (path : String) (fuel : Nat) (r : Int)
    (dev : Option dev_t) (h : get_block_device fs path fuel = some (r, dev)) (hr : 0 < r) :
    dev ≠ none := by
  unfold get_block_device at h
  split at h
  · simp only [Option.some.injEq, Prod.mk.injEq] at h
    omega
  · split at h
    · simp only [Option.some.injEq, Prod.mk.injEq] at h
      rw [← h.2]
      simp
    · split at h
      · simp only [Option.some.injEq, Prod.mk.injEq] at h
        omega
      · split at h
        · unfold get_btrfs_block_device at h
          split at h
          · simp only [Option.some.injEq, Prod.mk.injEq] at h
            omega
          · split at h
            · simp only [Option.some.injEq, Prod.mk.injEq] at h
              omega
            · split at h
              · simp only [Option.some.injEq, Prod.mk.injEq] at h
                omega
              · exact btrfs_device_loop_dev fs _ fuel 1 r dev h hr
        · simp only [Option.some.injEq, Prod.mk.injEq] at h
          omega

/-- When `devno_to_devnode` does not fail it has stored the node. -/
theorem devno_to_devnode_ret (u : udev) (devno : dev_t) (strdup : Bool) (r : Int)
    (ret : Option String) (h : devno_to_devnode u devno strdup = (r, ret)) (hr : ¬ r < 0) :
    ret ≠ none := by
  unfold devno_to_devnode at h
  have h1 : (log_oom : Int) < 0 := by decide
  have h2 : (- (ENODEV : Int)) < 0 := by decide
  have h3 : (- (ENOMEM : Int)) < 0 := by decide
  split at h
  · simp only [Prod.mk.injEq] at h
    rw [← h.1] at hr
    exact absurd h1 hr
  · split at h
    · simp only [Prod.mk.injEq] at h
      rw [← h.1] at hr
      exact absurd h2 hr
    · split at h
      · simp only [Prod.mk.injEq] at h
        rw [← h.2]
        simp
      · simp only [Prod.mk.injEq] at h
        rw [← h.1] at hr
        exact absurd h3 hr

/-- A positive result of `verify_gpt_partition` is 1, and the type and the partition
index asked for have then been written. -/
theorem verify_gpt_partition_written (B : blkid) (node : String) (fstype : Bool)
    (h : 0 < (verify_gpt_partition B node true true fstype).r) :
    (verify_gpt_partition B node true true fstype).r = 1 ∧
      (verify_gpt_partition B node true true fstype).type ≠ none ∧
      (verify_gpt_partition B node true true fstype).nr ≠ none := by
  unfold verify_gpt_partition verify_type verify_nr verify_fstype at *
  cases hB : B node with
  | error errno =>
    simp only [hB] at h
    split_ifs at h <;> simp [ENOMEM] at h
    omega
  | ok b =>
    simp only [hB, if_true] at h ⊢
    cases hS : b.PART_ENTRY_SCHEME with
    | failed errno =>
      simp only [hS] at h
      split_ifs at h <;> simp [EBADSLT, EIO] at h <;> omega
    | found v =>
      cases hT : b.PART_ENTRY_TYPE with
      | failed errno =>
        simp only [hS, hT] at h
        split_ifs at h <;> simp [EBADSLT, EIO] at h <;> omega
      | found rt =>
        obtain ⟨r1, t⟩ := rt
        cases hN : b.PART_ENTRY_NUMBER with
        | failed errno =>
          simp only [hS, hT, hN] at h
          split_ifs at h <;> simp [EBADSLT, EIO] at h <;> omega
        | found rn =>
          obtain ⟨r2, n⟩ := rn
          cases hF : b.TYPE with
          | failed errno =>
            simp only [hS, hT, hN, hF] at h ⊢
            split_ifs at h ⊢ <;> simp [EBADSLT, EIO, ENOMEM] at h ⊢ <;> omega
          | found f =>
            simp only [hS, hT, hN, hF] at h ⊢
            split_ifs at h ⊢ <;> simp [EBADSLT, EIO, ENOMEM] at h ⊢ <;> omega

theorem flow_next_inj {a b : loop_state} (h : flow.next a = flow.next b) : a = b := by
  cases h; rfl

/-- What one pass of the loop that goes on to the next entry has done to the state. -/
theorem loop_body_next (B : blkid) (d parent : udev_device) (s s1 : loop_state)
    (item : list_entry) (h : loop_body B d parent s item = .next s1) :
    held s1 = (match typed_sibling B d parent GPT_HOME item with
      | none => held s
      | some c => compete (held s) c) ∧
    s1.calls = s.calls ++ (sibling d parent item).toList.map call.verify_gpt_partition
      ++ (typed_sibling B d parent GPT_SWAP item).toList.map (fun c => call.add_swap c.node c.fstype) := by
  unfold loop_body at h
  unfold typed_sibling sibling
  cases hq : item.device with
  | none => simp [hq] at h
  | some q =>
    simp only [hq] at h ⊢
    by_cases h1 : q.devnum = d.devnum
    · simp [h1] at h ⊢; rw [← h]; simp
    · by_cases h2 : q.devnum = parent.devnum
      · simp [h1, h2] at h ⊢; rw [← h]; simp
      · cases hn : q.devnode with
        | none => simp [h1, h2, hn] at h
        | some node =>
          simp only [h1, h2, hn, if_false, or_self] at h ⊢
          generalize verify_gpt_partition B node true true true = v at h ⊢
          unfold classify at h
          have hne := GPT_SWAP_ne_GPT_HOME
          by_cases hr : v.r < 0
          · have hpos : ¬ 0 < v.r := by omega
            by_cases hb : v.r = - EBADSLT
            · rw [if_pos hr, if_pos hb] at h
              have h := flow_next_inj h
              subst h
              simp [held, hpos]
            · rw [if_pos hr, if_neg hb] at h
              cases h
          · rw [if_neg hr] at h
            by_cases h0 : v.r = 0
            · have hpos : ¬ 0 < v.r := by omega
              rw [if_pos h0] at h
              have h := flow_next_inj h
              subst h
              simp [held, hpos]
            · have hpos : 0 < v.r := by omega
              rw [if_neg h0] at h
              by_cases hs : v.type = some GPT_SWAP
              · rw [if_pos hs] at h
                have h := flow_next_inj h
                subst h
                simp [held, hpos, hs, hne]
              · rw [if_neg hs] at h
                by_cases hh : v.type = some GPT_HOME
                · rw [if_pos hh] at h
                  dsimp only at h
                  by_cases hc : s.home = none ∨ v.nr.getD 0 < s.home_nr
                  · rw [if_pos hc] at h
                    by_cases hd : item.strdup = true
                    · rw [if_pos hd] at h
                      have h := flow_next_inj h
                      subst h
                      have hne2 : ¬ GPT_HOME = GPT_SWAP := fun e => hne e.symm
                      simp only [hpos, hh, hne2, true_and, and_false, if_true, if_false]
                      refine ⟨?_, by simp [hne2]⟩
                      rcases hc with hc | hc
                      · simp [held, compete, hc]
                      · cases hm : s.home <;> simp [held, compete, hm, hc]
                    · rw [if_neg hd] at h
                      cases h
                  · rw [if_neg hc] at h
                    have h := flow_next_inj h
                    subst h
                    have hne2 : ¬ GPT_HOME = GPT_SWAP := fun e => hne e.symm
                    simp only [hpos, hh, hne2, true_and, and_false, if_true, if_false]
                    refine ⟨?_, by simp [hne2]⟩
                    push_neg at hc
                    obtain ⟨hc1, hc2⟩ := hc
                    cases hm : s.home with
                    | none => exact absurd hm hc1
                    | some x =>
                      have : ¬ v.nr.getD 0 < s.home_nr := by omega
                      simp [held, compete, hm, this]
                · rw [if_neg hh] at h
                  have h := flow_next_inj h
                  subst h
                  simp [held, hpos, hs, hh]

theorem loop_body_no_hard_error (B : blkid) (d parent : udev_device) (s : loop_state)
    (item : list_entry) (h : no_hard_error B d parent item = true) :
    ∃ s1, loop_body B d parent s item = .next s1 := by
  unfold no_hard_error at h
  unfold loop_body
  cases hq : item.device with
  | none => simp [hq] at h
  | some q =>
    simp only [hq] at h ⊢
    by_cases h1 : q.devnum = d.devnum
    · exact ⟨s, by simp [h1]⟩
    · by_cases h2 : q.devnum = parent.devnum
      · exact ⟨s, by simp [h1, h2]⟩
      · cases hn : q.devnode with
        | none => simp [h1, h2, hn] at h
        | some node =>
          simp only [h1, h2, hn, if_false, or_self, Bool.and_eq_true, Bool.or_eq_true,
            decide_eq_true_eq] at h ⊢
          obtain ⟨hd, hv⟩ := h
          generalize verify_gpt_partition B node true true true = v at hv ⊢
          unfold classify
          by_cases hr : v.r < 0
          · have hb : v.r = - EBADSLT := by
              rcases hv with hv | hv
              · omega
              · exact hv
            exact ⟨_, by rw [if_pos hr, if_pos hb]⟩
          · rw [if_neg hr]
            by_cases h0 : v.r = 0
            · exact ⟨_, by rw [if_pos h0]⟩
            · rw [if_neg h0]
              by_cases hs : v.type = some GPT_SWAP
              · exact ⟨_, by rw [if_pos hs]⟩
              · rw [if_neg hs]
                by_cases hh : v.type = some GPT_HOME
                · rw [if_pos hh]
                  dsimp only
                  by_cases hc : s.home = none ∨ v.nr.getD 0 < s.home_nr
                  · exact ⟨_, by rw [if_pos hc, if_pos hd]⟩
                  · exact ⟨_, by rw [if_neg hc]⟩
                · exact ⟨_, by rw [if_neg hh]⟩

theorem foreach_next (B : blkid) (d parent : udev_device) :
    ∀ (l : List list_entry) (s s1 : loop_state),
      udev_list_entry_foreach B d parent s l = .next s1 →
      held s1 = (l.filterMap (typed_sibling B d parent GPT_HOME)).foldl compete (held s) ∧
      s1.calls = s.calls ++ list_calls B d parent l := by
  intro l
  induction l with
  | nil =>
    intro s s1 h
    simp only [udev_list_entry_foreach] at h
    have h := flow_next_inj h
    subst h
    simp [list_calls]
  | cons item rest ih =>
    intro s s1 h
    simp only [udev_list_entry_foreach] at h
    cases hb : loop_body B d parent s item with
    | ret r s2 => rw [hb] at h; cases h
    | next s2 =>
      rw [hb] at h
      obtain ⟨ih1, ih2⟩ := ih s2 s1 h
      obtain ⟨b1, b2⟩ := loop_body_next B d parent s s2 item hb
      refine ⟨?_, ?_⟩
      · rw [ih1, b1]
        cases ht : typed_sibling B d parent GPT_HOME item with
        | none => simp [List.filterMap_cons, ht]
        | some c => simp [List.filterMap_cons, ht]
      · rw [ih2, b2]
        simp [list_calls, entry_calls, List.append_assoc]

theorem foreach_no_hard_error (B : blkid) (d parent : udev_device) :
    ∀ (l : List list_entry) (s : loop_state),
      (∀ item ∈ l, no_hard_error B d parent item = true) →
      ∃ s1, udev_list_entry_foreach B d parent s l = .next s1 := by
  intro l
  induction l with
  | nil => intro s _; exact ⟨s, rfl⟩
  | cons item rest ih =>
    intro s h
    obtain ⟨s2, h2⟩ := loop_body_no_hard_error B d parent s item (h item (List.mem_cons_self _ _))
    obtain ⟨s1, h1⟩ := ih s2 (fun x hx => h x (List.mem_cons_of_mem _ hx))
    exact ⟨s1, by simp only [udev_list_entry_foreach, h2, h1]⟩

theorem compete_foldl (cs : List candidate) :
    ∀ holder : Option candidate,
      (cs.foldl compete holder = none ↔ holder = none ∧ cs = []) ∧
      ∀ m, cs.foldl compete holder = some m →
        (holder = some m ∨ m ∈ cs) ∧ (∀ h, holder = some h → m.nr ≤ h.nr) ∧
          ∀ c ∈ cs, m.nr ≤ c.nr := by
  induction cs with
  | nil =>
    intro holder
    refine ⟨by simp, ?_⟩
    intro m hm
    simp only [List.foldl_nil] at hm
    refine ⟨Or.inl hm, ?_, by simp⟩
    intro h hh
    rw [hm] at hh
    cases hh
    exact le_refl _
  | cons c rest ih =>
    intro holder
    simp only [List.foldl_cons]
    have hc : ∃ x, compete holder c = some x ∧ x.nr ≤ c.nr ∧ (x = c ∨ holder = some x) ∧
        ∀ h, holder = some h → x.nr ≤ h.nr := by
      cases holder with
      | none => exact ⟨c, rfl, le_refl _, Or.inl rfl, by simp⟩
      | some h =>
        by_cases hlt : c.nr < h.nr
        · refine ⟨c, by simp [compete, hlt], le_refl _, Or.inl rfl, ?_⟩
          intro h2 e
          cases e
          omega
        · refine ⟨h, by simp [compete, hlt], by omega, Or.inr rfl, ?_⟩
          intro h2 e
          cases e
          exact le_refl _
    obtain ⟨x, hx, hxc, hxo, hxh⟩ := hc
    obtain ⟨i1, i2⟩ := ih (compete holder c)
    refine ⟨?_, ?_⟩
    · rw [i1, hx]; simp
    · intro m hm
      obtain ⟨j1, j2, j3⟩ := i2 m hm
      have hmx : m.nr ≤ x.nr := j2 x hx
      refine ⟨?_, ?_, ?_⟩
      · rcases j1 with j1 | j1
        · rw [hx] at j1
          cases j1
          rcases hxo with e | e
          · right; rw [e]; exact List.mem_cons_self _ _
          · left; exact e
        · right; exact List.mem_cons_of_mem _ j1
      · intro h hh
        exact le_trans hmx (hxh h hh)
      · intro c2 hc2
        rcases List.mem_cons.mp hc2 with e | e
        · rw [e]; exact le_trans hmx hxc
        · exact j3 c2 e

theorem sibling_some (d parent : udev_device) (item : list_entry) (node : String)
    (h : sibling d parent item = some node) :
    ∃ q, item.device = some q ∧ q.devnum ≠ d.devnum ∧ q.devnum ≠ parent.devnum ∧
      q.devnode = some node := by
  unfold sibling at h
  cases hq : item.device with
  | none => simp [hq] at h
  | some q =>
    simp only [hq] at h
    by_cases hx : q.devnum = d.devnum ∨ q.devnum = parent.devnum
    · simp [hx] at h
    · rw [if_neg hx] at h
      push_neg at hx
      exact ⟨q, rfl, hx.1, hx.2, h⟩

theorem typed_some (B : blkid) (d parent : udev_device) (t : sd_id128_t) (item : list_entry)
    (c : candidate) (h : typed_sibling B d parent t item = some c) :
    sibling d parent item = some c.node := by
  unfold typed_sibling at h
  cases hs : sibling d parent item with
  | none => simp [hs] at h
  | some node =>
    simp only [hs] at h
    split_ifs at h
    cases h
    rfl

theorem entry_calls_node (B : blkid) (d parent : udev_device) (item : list_entry) (c : call)
    (h : c ∈ entry_calls B d parent item) :
    ∃ node, sibling d parent item = some node ∧ call_node c = some node := by
  unfold entry_calls at h
  rcases List.mem_append.mp h with h | h
  · obtain ⟨node, hn, rfl⟩ := List.mem_map.mp h
    exact ⟨node, by simpa using hn, rfl⟩
  · obtain ⟨x, hx, rfl⟩ := List.mem_map.mp h
    have hx2 : typed_sibling B d parent GPT_SWAP item = some x := by simpa using hx
    exact ⟨x.node, typed_some B d parent GPT_SWAP item x hx2, rfl⟩

theorem list_calls_node (B : blkid) (d parent : udev_device) (l : List list_entry) (c : call)
    (h : c ∈ list_calls B d parent l) :
    ∃ item ∈ l, ∃ node, sibling d parent item = some node ∧ call_node c = some node := by
  induction l with
  | nil => simp [list_calls] at h
  | cons item rest ih =>
    simp only [list_calls] at h
    rcases List.mem_append.mp h with h | h
    · exact ⟨item, List.mem_cons_self _ _, entry_calls_node B d parent item c h⟩
    · obtain ⟨x, hx, hn⟩ := ih h
      exact ⟨x, List.mem_cons_of_mem _ hx, hn⟩

theorem list_calls_no_add_home (B : blkid) (d parent : udev_device) (l : List list_entry)
    (path fstype : String) : call.add_home path fstype ∉ list_calls B d parent l := by
  induction l with
  | nil => simp [list_calls]
  | cons item rest ih =>
    simp only [list_calls, List.mem_append, not_or]
    refine ⟨?_, ih⟩
    simp [entry_calls]

theorem held_some (s : loop_state) (c : candidate) :
    held s = some c ↔ s.home = some c.node ∧ s.home_nr = c.nr ∧ s.home_fstype = c.fstype := by
  unfold held
  cases hh : s.home with
  | none => simp
  | some x =>
    cases c
    simp

theorem compete_lowest (cs : List candidate) (hd : (cs.map candidate.nr).Nodup) (c : candidate)
    (hc : c ∈ cs) (hmin : ∀ c2 ∈ cs, c.nr ≤ c2.nr) : cs.foldl compete none = some c := by
  obtain ⟨h1, h2⟩ := compete_foldl cs none
  cases hf : cs.foldl compete none with
  | none =>
    have := (h1.mp hf).2
    rw [this] at hc
    cases hc
  | some m =>
    obtain ⟨hm, _, hle⟩ := h2 m hf
    have hm2 : m ∈ cs := by
      rcases hm with hm | hm
      · cases hm
      · exact hm
    have e : m.nr = c.nr := le_antisymm (hle c hc) (hmin m hm2)
    rw [List.inj_on_of_nodup_map hd hm2 hc e]

theorem loop_body_ret (B : blkid) (d parent : udev_device) (s s1 : loop_state)
    (item : list_entry) (r : Int) (h : loop_body B d parent s item = .ret r s1) :
    s1.calls = s.calls ∨
      ∃ node, sibling d parent item = some node ∧
        s1.calls = s.calls ++ [call.verify_gpt_partition node] := by
  unfold loop_body at h
  unfold sibling
  cases hq : item.device with
  | none =>
    simp only [hq] at h
    cases h
    exact Or.inl rfl
  | some q =>
    simp only [hq] at h ⊢
    by_cases h1 : q.devnum = d.devnum
    · simp [h1] at h
    · by_cases h2 : q.devnum = parent.devnum
      · simp [h1, h2] at h
      · cases hn : q.devnode with
        | none =>
          simp only [h1, h2, hn, if_false] at h
          cases h
          exact Or.inl rfl
        | some node =>
          simp only [h1, h2, hn, if_false, or_self] at h ⊢
          right
          refine ⟨node, rfl, ?_⟩
          generalize verify_gpt_partition B node true true true = v at h
          unfold classify at h
          split_ifs at h <;> cases h <;> rfl

theorem loop_body_root_or_parent (B : blkid) (d parent : udev_device) (s : loop_state)
    (item : list_entry) (h : is_root_or_parent d parent item = true) :
    loop_body B d parent s item = .next s := by
  unfold is_root_or_parent at h
  unfold loop_body
  cases hq : item.device with
  | none => simp [hq] at h
  | some q =>
    simp only [hq, decide_eq_true_eq] at h ⊢
    rcases h with h | h
    · simp [h]
    · simp [h]

theorem foreach_ret (B : blkid) (d parent : udev_device) :
    ∀ (l : List list_entry) (s s1 : loop_state) (r : Int),
      udev_list_entry_foreach B d parent s l = .ret r s1 →
      ∀ c ∈ s1.calls, c ∈ s.calls ∨
        ∃ item ∈ l, ∃ node, sibling d parent item = some node ∧ call_node c = some node := by
  intro l
  induction l with
  | nil =>
    intro s s1 r h
    simp only [udev_list_entry_foreach] at h
    cases h
  | cons item rest ih =>
    intro s s1 r h c hc
    simp only [udev_list_entry_foreach] at h
    cases hb : loop_body B d parent s item with
    | ret r2 s2 =>
      rw [hb] at h
      cases h
      rcases loop_body_ret B d parent s s1 item r hb with e | ⟨node, hn, e⟩
      · left; rw [← e]; exact hc
      · rw [e] at hc
        rcases List.mem_append.mp hc with hc | hc
        · left; exact hc
        · right
          refine ⟨item, List.mem_cons_self _ _, node, hn, ?_⟩
          rw [List.mem_singleton.mp hc]
          rfl
    | next s2 =>
      rw [hb] at h
      have b2 := (loop_body_next B d parent s s2 item hb).2
      rcases ih s2 s1 r h c hc with hc2 | ⟨x, hx, hn⟩
      · rw [b2, List.append_assoc] at hc2
        rcases List.mem_append.mp hc2 with hc2 | hc2
        · left; exact hc2
        · right
          exact ⟨item, List.mem_cons_self _ _, entry_calls_node B d parent item c hc2⟩
      · right
        exact ⟨x, List.mem_cons_of_mem _ hx, hn⟩

theorem foreach_filter (B : blkid) (d parent : udev_device) :
    ∀ (l : List list_entry) (s : loop_state),
      udev_list_entry_foreach B d parent s l
        = udev_list_entry_foreach B d parent s
            (l.filter (fun item => ! is_root_or_parent d parent item)) := by
  intro l
  induction l with
  | nil => intro s; rfl
  | cons item rest ih =>
    intro s
    cases hx : is_root_or_parent d parent item with
    | true =>
      rw [List.filter_cons_of_neg (by simp [hx])]
      simp only [udev_list_entry_foreach, loop_body_root_or_parent B d parent s item hx]
      exact ih s
    | false =>
      rw [List.filter_cons_of_pos (by simp [hx])]
      simp only [udev_list_entry_foreach]
      cases loop_body B d parent s item with
      | ret r s2 => rfl
      | next s2 => exact ih s2

theorem after_loop_next_mem (s : loop_state) (c : call) :
    c ∈ (after_loop (.next s)).2 ↔
      c ∈ s.calls ∨ ∃ home fstype, s.home = some home ∧ s.home_fstype = some fstype ∧
        c = call.add_home home fstype := by
  unfold after_loop
  cases hh : s.home <;> cases hf : s.home_fstype <;> simp [hh, hf]

theorem btrfs_device_loop_skip (fs : filesystem) (max_id : Nat) (hmax : max_id < 2 ^ 64) :
    ∀ (n id fuel : Nat), id + n ≤ max_id →
      (∀ i, id ≤ i → i < id + n → fs.BTRFS_IOC_DEV_INFO i = .error ENODEV) →
      btrfs_device_loop fs max_id (fuel + n) id = btrfs_device_loop fs max_id fuel (id + n) := by
  intro n
  induction n with
  | zero => intro id fuel _ _; rfl
  | succ n ih =>
    intro id fuel hle hskip
    have hid : id ≤ max_id := by omega
    have hmod : (id + 1) % 2 ^ 64 = id + 1 := Nat.mod_eq_of_lt (by omega)
    have hstep : btrfs_device_loop fs max_id (fuel + n + 1) id
        = btrfs_device_loop fs max_id (fuel + n) (id + 1) := by
      simp only [btrfs_device_loop, if_pos hid, hskip id (le_refl _) (by omega), if_true, hmod]
    rw [← Nat.add_assoc, hstep, ih (id + 1) fuel (by omega)
      (fun i h1 h2 => hskip i (by omega) (by omega))]
    congr 1
    omega

theorem btrfs_device_loop_at (fs : filesystem) (fsi : btrfs_ioctl_fs_info_args) (path : String)
    (fuel k : Nat) (ho : fs.open_directory path = .ok ()) (hi : fs.BTRFS_IOC_FS_INFO = .ok fsi)
    (h1 : fsi.num_devices = 1) (hmax : fsi.max_id < 2 ^ 64) (hk1 : 1 ≤ k) (hk : k ≤ fsi.max_id)
    (hskip : ∀ id, 1 ≤ id → id < k → fs.BTRFS_IOC_DEV_INFO id = .error ENODEV)
    (hfuel : k ≤ fuel) :
    get_btrfs_block_device fs path fuel = btrfs_device_loop fs fsi.max_id (fuel - k + 1) k := by
  unfold get_btrfs_block_device
  simp only [ho, hi, h1, ne_eq, not_true_eq_false, if_false]
  have e1 : fuel = (fuel - k + 1) + (k - 1) := by omega
  have e2 : k = 1 + (k - 1) := by omega
  have := btrfs_device_loop_skip fs fsi.max_id hmax (k - 1) 1 (fuel - k + 1) (by omega)
    (fun i a b => hskip i a (by omega))
  rw [← e1, ← e2] at this
  exact this

/-- C1: when no entry of the enumeration raises a hard error and the Home-typed
siblings have pairwise distinct partition indices, the loop of `enumerate_partitions`
runs to its end, the Home candidate it then holds (`home`, `home_nr`, with its file
system type) is the Home-typed sibling with the lowest partition index (none when
there is no Home-typed sibling), and every permutation of the enumeration ends with
the same candidate. -/
theorem home_candidate_is_lowest_index (B : blkid) (d parent : udev_device) (r : Int)
    (l : List list_entry)
    (hl : ∀ item ∈ l, no_hard_error B d parent item = true)
    (hd : ((l.filterMap (typed_sibling B d parent GPT_HOME)).map candidate.nr).Nodup) :
    ∃ s, udev_list_entry_foreach B d parent (loop_entry r) l = .next s ∧
      (l.filterMap (typed_sibling B d parent GPT_HOME) = [] → held s = none) ∧
      (∀ c ∈ l.filterMap (typed_sibling B d parent GPT_HOME),
        (∀ c2 ∈ l.filterMap (typed_sibling B d parent GPT_HOME), c.nr ≤ c2.nr) → held s = some c) ∧
      ∀ l2, l2.Perm l →
        ∃ s2, udev_list_entry_foreach B d parent (loop_entry r) l2 = .next s2 ∧
          held s2 = held s := by
  obtain ⟨s, hs⟩ := foreach_no_hard_error B d parent l (loop_entry r) hl
  have hheld := (foreach_next B d parent l (loop_entry r) s hs).1
  have h0 : held (loop_entry r) = none := rfl
  rw [h0] at hheld
  refine ⟨s, hs, ?_, ?_, ?_⟩
  · intro he
    rw [hheld, he]
    rfl
  · intro c hc hmin
    rw [hheld]
    exact compete_lowest _ hd c hc hmin
  · intro l2 hp
    have hl2 : ∀ item ∈ l2, no_hard_error B d parent item = true :=
      fun item hi => hl item (hp.mem_iff.mp hi)
    obtain ⟨s2, hs2⟩ := foreach_no_hard_error B d parent l2 (loop_entry r) hl2
    have hheld2 := (foreach_next B d parent l2 (loop_entry r) s2 hs2).1
    rw [h0] at hheld2
    refine ⟨s2, hs2, ?_⟩
    have hpf : (l2.filterMap (typed_sibling B d parent GPT_HOME)).Perm
        (l.filterMap (typed_sibling B d parent GPT_HOME)) := hp.filterMap _
    have hd2 : ((l2.filterMap (typed_sibling B d parent GPT_HOME)).map candidate.nr).Nodup :=
      ((hpf.map candidate.nr).nodup_iff).mpr hd
    rw [hheld, hheld2]
    obtain ⟨a1, a2⟩ := compete_foldl (l.filterMap (typed_sibling B d parent GPT_HOME)) none
    cases hf : (l.filterMap (typed_sibling B d parent GPT_HOME)).foldl compete none with
    | none =>
      have he := (a1.mp hf).2
      have he2 : l2.filterMap (typed_sibling B d parent GPT_HOME) = [] := by
        have := hpf.length_eq
        rw [he] at this
        exact List.length_eq_zero.mp this
      rw [he2]
      rfl
    | some m =>
      obtain ⟨hm, _, hle⟩ := a2 m hf
      have hm1 : m ∈ l.filterMap (typed_sibling B d parent GPT_HOME) := by
        rcases hm with hm | hm
        · cases hm
        · exact hm
      exact compete_lowest _ hd2 m (hpf.mem_iff.mpr hm1)
        (fun c2 hc2 => hle c2 (hpf.mem_iff.mp hc2))

/-- C1, on the disk `sda` with the partitions 3 (Swap), 4 and 2 (Home): the loop ends
holding partition 2, in this order and in every other. -/
theorem home_candidate_is_lowest_index_sda :
    ∃ s, udev_list_entry_foreach sda_blkid sda_root sda_disk (loop_entry 0)
        [sda 0 "/dev/sda", sda 1 "/dev/sda1", sda 3 "/dev/sda3", sda 4 "/dev/sda4",
          sda 2 "/dev/sda2"] = .next s ∧
      held s = some ⟨"/dev/sda2", 2, some "ext4"⟩ ∧
      ∀ l2, l2.Perm [sda 0 "/dev/sda", sda 1 "/dev/sda1", sda 3 "/dev/sda3",
          sda 4 "/dev/sda4", sda 2 "/dev/sda2"] →
        ∃ s2, udev_list_entry_foreach sda_blkid sda_root sda_disk (loop_entry 0) l2 = .next s2 ∧
          held s2 = held s := by
  obtain ⟨s, h1, _, h3, h4⟩ := home_candidate_is_lowest_index sda_blkid sda_root sda_disk 0
    [sda 0 "/dev/sda", sda 1 "/dev/sda1", sda 3 "/dev/sda3", sda 4 "/dev/sda4",
      sda 2 "/dev/sda2"] (by decide) (by decide)
  exact ⟨s, h1, h3 ⟨"/dev/sda2", 2, some "ext4"⟩ (by decide) (by decide), h4⟩

/-- C5: an enumerated device whose device number is the root device's or its parent's
has no part in `enumerate_partitions`.  The loop does with a list what it does with
the list without those entries, whatever they are; and every call made (the probes,
`add_swap`, `add_home`), also by a run that ends in an error, is made with the device
node of an enumerated device whose number is neither the root device's nor the
parent's. -/
theorem root_and_parent_never_candidates (B : blkid) (d parent : udev_device)
    (l : List list_entry) :
    (∀ s, udev_list_entry_foreach B d parent s l
        = udev_list_entry_foreach B d parent s
            (l.filter (fun item => ! is_root_or_parent d parent item))) ∧
      ∀ r, ∀ c ∈ (after_loop (udev_list_entry_foreach B d parent (loop_entry r) l)).2,
        ∃ item ∈ l, ∃ q node, item.device = some q ∧ q.devnum ≠ d.devnum ∧
          q.devnum ≠ parent.devnum ∧ q.devnode = some node ∧ call_node c = some node := by
  refine ⟨foreach_filter B d parent l, ?_⟩
  intro r c hc
  have key : ∃ item ∈ l, ∃ node, sibling d parent item = some node ∧
      call_node c = some node := by
    cases hf : udev_list_entry_foreach B d parent (loop_entry r) l with
    | ret r2 s1 =>
      rw [hf] at hc
      rcases foreach_ret B d parent l (loop_entry r) s1 r2 hf c hc with h | h
      · cases h
      · exact h
    | next s1 =>
      rw [hf] at hc
      obtain ⟨hheld, hcalls⟩ := foreach_next B d parent l (loop_entry r) s1 hf
      have h0 : (loop_entry r).calls = [] := rfl
      rw [h0, List.nil_append] at hcalls
      rcases (after_loop_next_mem s1 c).mp hc with h | ⟨home, fstype, hh, hfs, rfl⟩
      · rw [hcalls] at h
        exact list_calls_node B d parent l c h
      · have hs : held s1 = some ⟨home, s1.home_nr, some fstype⟩ :=
          (held_some s1 _).mpr ⟨hh, rfl, hfs⟩
        rw [hheld] at hs
        have hm := ((compete_foldl _ none).2 _ hs).1
        rcases hm with hm | hm
        · cases hm
        · obtain ⟨item, hi, ht⟩ := List.mem_filterMap.mp hm
          exact ⟨item, hi, home, typed_some B d parent GPT_HOME item _ ht, rfl⟩
  obtain ⟨item, hi, node, hs, hn⟩ := key
  obtain ⟨q, hq, h1, h2, h3⟩ := sibling_some d parent item node hs
  exact ⟨item, hi, q, node, hq, h1, h2, h3, hn⟩

/-- C5, on an enumeration in which the root device 8:1 answers with the node of the
Swap partition and the parent 8:0 with the node of the Home partition 2: neither is
probed, and the only calls are the probe of partition 4 and `add_home` for it. -/
theorem root_and_parent_never_candidates_sda :
    udev_list_entry_foreach sda_blkid sda_root sda_disk (loop_entry 0)
        [sda 1 "/dev/sda3", sda 0 "/dev/sda2", sda 4 "/dev/sda4"]
      = udev_list_entry_foreach sda_blkid sda_root sda_disk (loop_entry 0)
          [sda 4 "/dev/sda4"] ∧
      (after_loop (udev_list_entry_foreach sda_blkid sda_root sda_disk (loop_entry 0)
          [sda 1 "/dev/sda3", sda 0 "/dev/sda2", sda 4 "/dev/sda4"])).2
        = [call.verify_gpt_partition "/dev/sda4", call.add_home "/dev/sda4" "xfs"] :=
  ⟨(root_and_parent_never_candidates sda_blkid sda_root sda_disk
      [sda 1 "/dev/sda3", sda 0 "/dev/sda2", sda 4 "/dev/sda4"]).1 (loop_entry 0),
    by decide⟩

/-- C10: `add_home` is called exactly when the candidate held at the end of the loop
has a file system type.  A Home-typed sibling without a detected file system type whose
partition index is below that of every other Home-typed sibling is the candidate held
at the end, without a file system type, and `add_home` is not called at all, whatever
the other Home-typed siblings are. -/
theorem add_home_needs_fstype_of_lowest (B : blkid) (d parent : udev_device) (r : Int)
    (l : List list_entry) (s : loop_state)
    (h : udev_list_entry_foreach B d parent (loop_entry r) l = .next s) :
    (∀ path fstype,
        call.add_home path fstype
            ∈ (after_loop (udev_list_entry_foreach B d parent (loop_entry r) l)).2 ↔
          s.home = some path ∧ s.home_fstype = some fstype) ∧
      ∀ c ∈ l.filterMap (typed_sibling B d parent GPT_HOME), c.fstype = none →
        (∀ c2 ∈ l.filterMap (typed_sibling B d parent GPT_HOME), c2 ≠ c → c.nr < c2.nr) →
        held s = some c ∧
          ∀ path fstype,
            call.add_home path fstype
              ∉ (after_loop (udev_list_entry_foreach B d parent (loop_entry r) l)).2 := by
  obtain ⟨hheld, hcalls⟩ := foreach_next B d parent l (loop_entry r) s h
  have h0 : (loop_entry r).calls = [] := rfl
  have h1 : held (loop_entry r) = none := rfl
  rw [h0, List.nil_append] at hcalls
  rw [h1] at hheld
  have first : ∀ path fstype,
      call.add_home path fstype
          ∈ (after_loop (udev_list_entry_foreach B d parent (loop_entry r) l)).2 ↔
        s.home = some path ∧ s.home_fstype = some fstype := by
    intro path fstype
    rw [h, after_loop_next_mem, hcalls]
    constructor
    · rintro (hc | ⟨home, fs, hh, hf, e⟩)
      · exact absurd hc (list_calls_no_add_home B d parent l path fstype)
      · cases e
        exact ⟨hh, hf⟩
    · rintro ⟨hh, hf⟩
      exact Or.inr ⟨path, fstype, hh, hf, rfl⟩
  refine ⟨first, ?_⟩
  intro c hc hnone hlow
  have hc2 : held s = some c := by
    obtain ⟨a1, a2⟩ := compete_foldl (l.filterMap (typed_sibling B d parent GPT_HOME)) none
    cases hf : (l.filterMap (typed_sibling B d parent GPT_HOME)).foldl compete none with
    | none =>
      have he := (a1.mp hf).2
      rw [he] at hc
      cases hc
    | some m =>
      obtain ⟨hm, _, hle⟩ := a2 m hf
      have hm1 : m ∈ l.filterMap (typed_sibling B d parent GPT_HOME) := by
        rcases hm with hm | hm
        · cases hm
        · exact hm
      rw [hheld, hf]
      by_cases e : m = c
      · rw [e]
      · have := hlow m hm1 e
        have := hle c hc
        omega
  refine ⟨hc2, ?_⟩
  intro path fstype hmem
  have hs := (first path fstype).mp hmem
  have hf := ((held_some s c).mp hc2).2.2
  rw [hs.2, hnone] at hf
  cases hf

/-- C10, on the disk `sdb`: partition 2 (Home, ext4) is enumerated first, partition 1
(Home, no file system detected) takes the slot from it, and no `add_home` follows. -/
theorem add_home_needs_fstype_of_lowest_sdb :
    ∃ s, udev_list_entry_foreach sda_blkid sdb_root sdb_disk (loop_entry 0) sdb_list = .next s ∧
      held s = some ⟨"/dev/sdb1", 1, none⟩ ∧
      ∀ path fstype,
        call.add_home path fstype
          ∉ (after_loop (udev_list_entry_foreach sda_blkid sdb_root sdb_disk (loop_entry 0)
              sdb_list)).2 :=
  ⟨⟨1, some "/dev/sdb1", 1, none, [call.verify_gpt_partition "/dev/sdb2",
      call.verify_gpt_partition "/dev/sdb1"]⟩, by decide,
    (add_home_needs_fstype_of_lowest sda_blkid sdb_root sdb_disk 0 sdb_list
      ⟨1, some "/dev/sdb1", 1, none, [call.verify_gpt_partition "/dev/sdb2",
        call.verify_gpt_partition "/dev/sdb1"]⟩ (by decide)).2
      ⟨"/dev/sdb1", 1, none⟩ (by decide) rfl (by decide)⟩

/-- C6: when the safe probe of a device succeeds and the device is not a GPT
partition, `verify_gpt_partition` returns 0 and writes no out-parameter, both when
`PART_ENTRY_SCHEME` is a string other than "gpt" and when no scheme is reported (the
lookup finds nothing and leaves `errno` alone). -/
theorem verify_gpt_partition_not_gpt (B : blkid) (node : String) (b : blkid_probe)
    (type nr fstype : Bool) (hb : B node = .ok b) (hp : b.do_safeprobe = 0) :
    (∀ v, b.PART_ENTRY_SCHEME = .found v → v ≠ "gpt" →
        verify_gpt_partition B node type nr fstype = ⟨0, none, none, none⟩) ∧
      (b.PART_ENTRY_SCHEME = .failed 0 →
        verify_gpt_partition B node type nr fstype = ⟨0, none, none, none⟩) := by
  unfold verify_gpt_partition
  simp only [hb, hp]
  constructor
  · intro v hv hne
    simp [hv, hne]
  · intro hv
    simp [hv]

/-- C6, on a partition of an MBR disk and on a disk without a partition table. -/
theorem verify_gpt_partition_not_gpt_sdc_sdd :
    verify_gpt_partition sda_blkid "/dev/sdd1" true true true = ⟨0, none, none, none⟩ ∧
      verify_gpt_partition sda_blkid "/dev/sdc" false false false = ⟨0, none, none, none⟩ :=
  ⟨(verify_gpt_partition_not_gpt sda_blkid "/dev/sdd1" dos_partition true true true rfl rfl).1
      "dos" rfl (by decide),
    (verify_gpt_partition_not_gpt sda_blkid "/dev/sdc" (plain_filesystem "ext4") false false false
      rfl rfl).2 rfl⟩

/-- C7 as stated fails: with device count 1 and ids 1 and 2 resolving to a block device
with major number zero and to the block device 8:2, the first id that resolves to a
block device with a non-zero major number is 2, with device number 8:2, and
`get_btrfs_block_device` returns `-ENODEV`. -/
theorem zero_major_id_is_not_skipped :
    first_real_block_device (btrfs_root ⟨1, 2⟩ zero_major_first) 2 = some ⟨8, 2⟩ ∧
      get_btrfs_block_device (btrfs_root ⟨1, 2⟩ zero_major_first) "/" 2
        = some (- (ENODEV : Int), none) := by
  constructor
  · decide
  · decide

/-- C7, amended: with device count 1, the ids from 1 on that resolve to "no such
device" are skipped, and the first id `k` that does not decides: when it resolves to
a block device with a non-zero major number the result is 1 with that device number;
when it resolves to something that is not a block device, or to a block device with
major number zero, the result is `-ENODEV` and no later id is looked at. -/
theorem first_answering_id_decides (fs : filesystem) (fsi : btrfs_ioctl_fs_info_args)
    (path : String) (fuel k : Nat)
    (ho : fs.open_directory path = .ok ()) (hi : fs.BTRFS_IOC_FS_INFO = .ok fsi)
    (h1 : fsi.num_devices = 1) (hmax : fsi.max_id < 2 ^ 64) (hk1 : 1 ≤ k) (hk : k ≤ fsi.max_id)
    (hskip : ∀ id, 1 ≤ id → id < k → fs.BTRFS_IOC_DEV_INFO id = .error ENODEV)
    (hfuel : k ≤ fuel) :
    (∀ p st, fs.BTRFS_IOC_DEV_INFO k = .ok p → fs.stat p = .ok st → st.S_ISBLK = true →
        st.st_rdev.major ≠ 0 →
        get_btrfs_block_device fs path fuel = some (1, some st.st_rdev)) ∧
      (∀ p st, fs.BTRFS_IOC_DEV_INFO k = .ok p → fs.stat p = .ok st →
        (st.S_ISBLK = false ∨ st.st_rdev.major = 0) →
        get_btrfs_block_device fs path fuel = some (- (ENODEV : Int), none)) := by
  have key := btrfs_device_loop_at fs fsi path fuel k ho hi h1 hmax hk1 hk hskip hfuel
  constructor
  · intro p st hp hst hb hm
    rw [key]
    simp [btrfs_device_loop, hk, hp, hst, hb, hm]
  · intro p st hp hst hx
    rw [key]
    rcases hx with hx | hx
    · simp [btrfs_device_loop, hk, hp, hst, hx]
    · simp [btrfs_device_loop, hk, hp, hst, hx]

/-- C7, amended, on a btrfs whose only device has id 2, and on one whose id 1
resolves to an image file. -/
theorem first_answering_id_decides_sda2 :
    get_btrfs_block_device (btrfs_root ⟨1, 2⟩ second_id_only) "/" 2 = some (1, some ⟨8, 2⟩) ∧
      get_btrfs_block_device (btrfs_root ⟨1, 2⟩ image_file_first) "/" 2
        = some (- (ENODEV : Int), none) :=
  ⟨(first_answering_id_decides (btrfs_root ⟨1, 2⟩ second_id_only) ⟨1, 2⟩ "/" 2 2 rfl rfl rfl
      (by decide) (by decide) (by decide)
      (fun id a b => by
        have e : id = 1 := by omega
        subst e
        rfl)
      (by decide)).1 "/dev/sda2" ⟨true, ⟨8, 2⟩⟩ rfl rfl rfl (by decide),
    (first_answering_id_decides (btrfs_root ⟨1, 2⟩ image_file_first) ⟨1, 2⟩ "/" 2 1 rfl rfl rfl
      (by decide) (by decide) (by decide) (fun id a b => by omega) (by decide)).2
      "/var/btrfs.img" ⟨false, ⟨0, 0⟩⟩ rfl rfl (Or.inl rfl)⟩

/-- C8: when `lstat` reports a zero major number for the root file system, `statfs`
reports btrfs, and the file system reports a device count other than 1,
`get_block_device` returns 0 without a device, and `main`, started with no or three
arguments, exits with `EXIT_SUCCESS` having called neither `enumerate_partitions` nor
`add_swap` nor `add_home` (it has made no call at all). -/
theorem multi_device_btrfs_generates_nothing (w : system) (argc : Int) (fuel : Nat)
    (st_dev : dev_t) (fsi : btrfs_ioctl_fs_info_args)
    (hargc : argc ≤ 1 ∨ argc = 4)
    (hl : w.fs.lstat = .ok st_dev) (hm : st_dev.major = 0)
    (hs : w.fs.statfs = .ok BTRFS_SUPER_MAGIC)
    (ho : w.fs.open_directory "/" = .ok ()) (hi : w.fs.BTRFS_IOC_FS_INFO = .ok fsi)
    (hn : fsi.num_devices ≠ 1) :
    get_block_device w.fs "/" fuel = some (0, none) ∧
      main w argc fuel = some (EXIT_SUCCESS, []) := by
  have hg : get_block_device w.fs "/" fuel = some (0, none) := by
    unfold get_block_device get_btrfs_block_device
    simp [hl, hm, hs, ho, hi, hn]
  refine ⟨hg, ?_⟩
  have ha : ¬ (argc > 1 ∧ argc ≠ 4) := by
    rintro ⟨a, b⟩
    rcases hargc with h | h
    · omega
    · exact b h
  unfold main
  rw [if_neg ha]
  by_cases h1 : w.in_initrd = true
  · rw [if_pos h1]; rfl
  · rw [if_neg h1]
    by_cases h2 : w.detect_container > 0
    · rw [if_pos h2]; rfl
    · rw [if_neg h2, hg]
      rfl

/-- C8, on a btrfs RAID of two devices (scenario 4 of the specification). -/
theorem multi_device_btrfs_generates_nothing_raid :
    get_block_device (btrfs_root ⟨2, 2⟩ two_devices) "/" 0 = some (0, none) ∧
      main (btrfs_system ⟨2, 2⟩ two_devices) 1 0 = some (EXIT_SUCCESS, []) :=
  multi_device_btrfs_generates_nothing (btrfs_system ⟨2, 2⟩ two_devices) 1 0 ⟨0, 30⟩ ⟨2, 2⟩
    (by decide) rfl rfl rfl rfl rfl (by decide)

/-- C9 as stated fails: when `/home` does not exist (`dir_is_empty` returns `-ENOENT`)
the mount target is not non-empty, every other call would succeed, and `add_home`
still returns 0 without creating a unit file or a symlink. -/
theorem add_home_skips_missing_home :
    (home_calls_ok (-2)).dir_is_empty ≠ 0 ∧
      add_home systemd_special "/run/systemd/generator" (home_calls_ok (-2)) "/dev/sda2" "ext4"
        = (0, []) := by
  constructor
  · decide
  · decide

/-- C9, amended: `add_home` returns 0 and makes no file system call (no unit file, no
symlink) whenever `dir_is_empty("/home")` is not positive, that is when `/home` has
entries or cannot be read as a directory.  When `/home` is an empty directory and the
calls that build, create, write and link the unit succeed, it returns 0 having created
`home.mount` in the output directory, written the `[Unit]` section followed by a
`[Mount]` section with `What=` the device path, `Where=/home` and `Type=` the file
system type, and linked the unit into `local-fs.target.requires/`. -/
theorem add_home_skip_or_unit (sp : special) (arg_dest : String) (c : home_calls)
    (path fstype : String) :
    (c.dir_is_empty ≤ 0 → add_home sp arg_dest c path fstype = (0, [])) ∧
      ∀ fsck, 0 < c.dir_is_empty → c.strappend = true → c.fopen = .ok () →
        c.unit_name_from_path_instance = some fsck → c.ferror = none → c.strjoin = true →
        c.symlink = .ok () →
        add_home sp arg_dest c path fstype =
          (0, [fs_call.fopen (arg_dest ++ "/home.mount") "wxe",
            fs_call.fprintf (arg_dest ++ "/home.mount")
              (home_unit_section sp fsck ++
                ("[Mount]\nWhat=" ++ path ++ "\nWhere=/home\nType=" ++ fstype ++ "\n")),
            fs_call.mkdir_parents_label
              (arg_dest ++ "/" ++ sp.SPECIAL_LOCAL_FS_TARGET ++ ".requires/home.mount"),
            fs_call.symlink (arg_dest ++ "/home.mount")
              (arg_dest ++ "/" ++ sp.SPECIAL_LOCAL_FS_TARGET ++ ".requires/home.mount")]) := by
  constructor
  · intro h
    unfold add_home
    rw [if_pos h]
  · intro fsck h1 h2 h3 h4 h5 h6 h7
    have hn : ¬ c.dir_is_empty ≤ 0 := by omega
    have hm : home_mount_section path fstype
        = "[Mount]\nWhat=" ++ path ++ "\nWhere=/home\nType=" ++ fstype ++ "\n" := by
      unfold home_mount_section
      have e1 : "[Mount]\n" ++ "What=" = "[Mount]\nWhat=" := by decide
      have e2 : ("\n" : String) ++ "Where=/home\n" ++ "Type=" = "\nWhere=/home\nType=" := by
        decide
      rw [e1, ← e2]
      simp only [String.append_assoc]
    unfold add_home
    simp only [if_neg hn, h2, h3, h4, h5, h6, h7, hm, not_true_eq_false, if_false]

/-- C9, amended, on `/home` with entries and on an empty `/home`. -/
theorem add_home_skip_or_unit_sda2 :
    add_home systemd_special "/run/systemd/generator" (home_calls_ok 0) "/dev/sda2" "ext4"
        = (0, []) ∧
      add_home systemd_special "/run/systemd/generator" (home_calls_ok 1) "/dev/sda2" "ext4" =
        (0, [fs_call.fopen ("/run/systemd/generator" ++ "/home.mount") "wxe",
          fs_call.fprintf ("/run/systemd/generator" ++ "/home.mount")
            (home_unit_section systemd_special "systemd-fsck@dev-sda2.service" ++
              ("[Mount]\nWhat=" ++ "/dev/sda2" ++ "\nWhere=/home\nType=" ++ "ext4" ++ "\n")),
          fs_call.mkdir_parents_label
            ("/run/systemd/generator" ++ "/" ++ systemd_special.SPECIAL_LOCAL_FS_TARGET
              ++ ".requires/home.mount"),
          fs_call.symlink ("/run/systemd/generator" ++ "/home.mount")
            ("/run/systemd/generator" ++ "/" ++ systemd_special.SPECIAL_LOCAL_FS_TARGET
              ++ ".requires/home.mount")]) :=
  ⟨(add_home_skip_or_unit systemd_special "/run/systemd/generator" (home_calls_ok 0)
      "/dev/sda2" "ext4").1 (by decide),
    (add_home_skip_or_unit systemd_special "/run/systemd/generator" (home_calls_ok 1)
      "/dev/sda2" "ext4").2 "systemd-fsck@dev-sda2.service" (by decide) rfl rfl rfl rfl rfl rfl⟩

/-- C3 as stated fails on its own scenario (Swap 3, Home 2, Home 4, unreadable 5): the
probe of partition 5 ends `enumerate_partitions` with `-EACCES`; `add_swap` was called
for partition 3, `add_home` is called for no partition, and `main` exits with
`EXIT_FAILURE`. -/
theorem unreadable_sibling_ends_the_run :
    enumerate_partitions sda_blkid (sda_udev sda_scenario) ⟨8, 1⟩
        = (-13, [call.verify_gpt_partition "/dev/sda3", call.add_swap "/dev/sda3" (some "swap"),
            call.verify_gpt_partition "/dev/sda2", call.verify_gpt_partition "/dev/sda4",
            call.verify_gpt_partition "/dev/sda5"]) ∧
      (main (sda_system sda_scenario) 1 0).map Prod.fst = some EXIT_FAILURE := by
  constructor
  · decide
  · decide

/-- C3, amended: a sibling whose safe probe reports no result (-2) or more than one
(1) is skipped: the loop goes on with the remaining entries, with the Home candidate
and the calls made so far as they were but for the record of the probe, so the
remaining entries are probed and classified as if it were absent.  A sibling whose
device node cannot be opened is not skipped: unless the errno is `EBADSLT`,
`enumerate_partitions` returns the negative errno (`-ENOMEM` when errno is 0) at
once, with no further probe and without `add_home`. -/
theorem ambiguous_skipped_unreadable_fatal (B : blkid) (d parent : udev_device)
    (s : loop_state) (item : list_entry) (q : udev_device) (node : String)
    (rest : List list_entry)
    (hq : item.device = some q) (h1 : q.devnum ≠ d.devnum) (h2 : q.devnum ≠ parent.devnum)
    (hn : q.devnode = some node) :
    (∀ b, B node = .ok b → (b.do_safeprobe = -2 ∨ b.do_safeprobe = 1) →
        ∃ r, udev_list_entry_foreach B d parent s (item :: rest)
          = udev_list_entry_foreach B d parent
              { s with r := r, calls := s.calls ++ [call.verify_gpt_partition node] } rest) ∧
      ∀ errno, B node = .error errno → errno ≠ EBADSLT →
        after_loop (udev_list_entry_foreach B d parent s (item :: rest))
          = (if errno ≠ 0 then - (errno : Int) else - (ENOMEM : Int),
              s.calls ++ [call.verify_gpt_partition node]) := by
  constructor
  · intro b hb hp
    have hv : verify_gpt_partition B node true true true
        = ⟨- (EBADSLT : Int), none, none, none⟩ := by
      unfold verify_gpt_partition
      simp only [hb, hp, if_true]
    have hbody : loop_body B d parent s item
        = .next { s with r := - (EBADSLT : Int),
                         calls := s.calls ++ [call.verify_gpt_partition node] } := by
      unfold loop_body
      simp only [hq, h1, h2, hn, hv, if_false]
      have : (- (EBADSLT : Int)) < 0 := by decide
      simp [this]
    exact ⟨- (EBADSLT : Int), by simp only [udev_list_entry_foreach, hbody]⟩
  · intro errno hb hne
    have hv : verify_gpt_partition B node true true true
        = ⟨if errno ≠ 0 then - (errno : Int) else - (ENOMEM : Int), none, none, none⟩ := by
      unfold verify_gpt_partition
      simp only [hb]
    have hr : (if errno ≠ 0 then - (errno : Int) else - (ENOMEM : Int)) < 0 := by
      split_ifs with h0
      · omega
      · decide
    have hb2 : (if errno ≠ 0 then - (errno : Int) else - (ENOMEM : Int))
        ≠ - (EBADSLT : Int) := by
      split_ifs with h0
      · intro e
        exact hne (Int.ofNat_inj.mp (neg_injective e))
      · decide
    have hbody : loop_body B d parent s item
        = .ret (if errno ≠ 0 then - (errno : Int) else - (ENOMEM : Int))
            { s with r := if errno ≠ 0 then - (errno : Int) else - (ENOMEM : Int),
                     calls := s.calls ++ [call.verify_gpt_partition node] } := by
      unfold loop_body
      simp only [hq, h1, h2, hn, hv, if_false]
      rw [if_pos hr, if_neg hb2]
    simp only [udev_list_entry_foreach, hbody, after_loop]

/-- C3, amended, on the disk `sda`: the ambiguous partition 6 is passed over wherever
it stands, and with it in place of the unreadable partition 5 the scenario gives one
`add_swap` (partition 3) and `add_home` for partition 2; the unreadable partition 5
ends the run before partitions 3 and 2 are looked at. -/
theorem ambiguous_skipped_unreadable_fatal_sda :
    (∃ r, udev_list_entry_foreach sda_blkid sda_root sda_disk (loop_entry 0)
        [sda 6 "/dev/sda6", sda 3 "/dev/sda3", sda 2 "/dev/sda2"]
      = udev_list_entry_foreach sda_blkid sda_root sda_disk
          { loop_entry 0 with r := r,
                              calls := (loop_entry 0).calls
                                ++ [call.verify_gpt_partition "/dev/sda6"] }
          [sda 3 "/dev/sda3", sda 2 "/dev/sda2"]) ∧
      (after_loop (udev_list_entry_foreach sda_blkid sda_root sda_disk (loop_entry 0)
          sda_settling)).2
        = [call.verify_gpt_partition "/dev/sda3", call.add_swap "/dev/sda3" (some "swap"),
            call.verify_gpt_partition "/dev/sda2", call.verify_gpt_partition "/dev/sda4",
            call.verify_gpt_partition "/dev/sda6", call.add_home "/dev/sda2" "ext4"] ∧
      after_loop (udev_list_entry_foreach sda_blkid sda_root sda_disk (loop_entry 0)
          [sda 5 "/dev/sda5", sda 3 "/dev/sda3", sda 2 "/dev/sda2"])
        = (-13, [call.verify_gpt_partition "/dev/sda5"]) :=
  ⟨(ambiguous_skipped_unreadable_fatal sda_blkid sda_root sda_disk (loop_entry 0)
      (sda 6 "/dev/sda6") ⟨⟨8, 6⟩, some "/dev/sda6"⟩ "/dev/sda6"
      [sda 3 "/dev/sda3", sda 2 "/dev/sda2"] rfl (by decide) (by decide) rfl).1
      ambiguous_partition rfl (Or.inr rfl),
    by decide,
    (ambiguous_skipped_unreadable_fatal sda_blkid sda_root sda_disk (loop_entry 0)
      (sda 5 "/dev/sda5") ⟨⟨8, 5⟩, some "/dev/sda5"⟩ "/dev/sda5"
      [sda 3 "/dev/sda3", sda 2 "/dev/sda2"] rfl (by decide) (by decide) rfl).2
      13 rfl (by decide)⟩

/-- C2, the code at the failing input: on the disk `sda` with Swap 3, Home 2, Home 4
and the ambiguous partition 6 every probe gives a GPT partition or a skip and both
units are generated, yet `main` exits with `EXIT_FAILURE` when partition 6 is
enumerated last, because `enumerate_partitions` returns the `-EBADSLT` left in `r`;
with partition 6 enumerated first the same run exits with `EXIT_SUCCESS`. -/
theorem main_fails_when_last_sibling_is_ambiguous :
    enumerate_partitions sda_blkid (sda_udev sda_settling) ⟨8, 1⟩
        = (- (EBADSLT : Int), [call.verify_gpt_partition "/dev/sda3",
            call.add_swap "/dev/sda3" (some "swap"), call.verify_gpt_partition "/dev/sda2",
            call.verify_gpt_partition "/dev/sda4", call.verify_gpt_partition "/dev/sda6",
            call.add_home "/dev/sda2" "ext4"]) ∧
      (main (sda_system sda_settling) 1 0).map Prod.fst = some EXIT_FAILURE ∧
      (main (sda_system [sda 6 "/dev/sda6", sda 0 "/dev/sda", sda 1 "/dev/sda1",
          sda 3 "/dev/sda3", sda 2 "/dev/sda2", sda 4 "/dev/sda4"]) 1 0).map Prod.fst
        = some EXIT_SUCCESS := by
  refine ⟨?_, ?_, ?_⟩
  · decide
  · decide
  · decide

end GptAutoGenerator
